import Mathlib

/-!
Shallow embedding of `src/action-system/gateways/redis_db_gateway.py`
(class `RedisGateway`).

The gateway wraps the `redis` Python client.  Network effects are made
explicit: the outcome of each `echo` liveness probe and of each raw
`r.get(key)` read is a parameter of the embedded operation, so every
control path of the Python code (try/except/finally, the retry loop in
`_test_connection_with`, the port defaulting in `__init__`) is a pure
Lean function of those outcomes.

Python exceptions are modelled by `Exc`: a class tag, an optional
message (`str(e)`; raising a bare class as in
`raise redis.exceptions.ConnectionError from e` yields no message), and
an optional `__cause__` chain (`raise ... from e` sets it, `from None`
clears it).
-/

namespace RedisGatewayModel

/-- The exception classes that occur in the gateway's code paths.
`authenticationError`, `responseError`, `connectionError` are the
`redis.exceptions` classes named in the source; `typeError` and
`valueError` are the Python builtins that `int(...)` can raise. -/
inductive ExcKind where
  | authenticationError
  | responseError
  | connectionError
  | typeError
  | valueError
deriving DecidableEq, Repr

/-- A raised Python exception: class tag, optional message, optional
`__cause__` (set by `raise ... from e`). -/
inductive Exc where
  | mk (kind : ExcKind) (msg : Option String) (cause : Option Exc)

/-- Class tag of an exception. -/
def Exc.kind : Exc → ExcKind
  | .mk k _ _ => k

/-- Message (`str(e)`) of an exception; `none` when a bare class was raised. -/
def Exc.msg : Exc → Option String
  | .mk _ m _ => m

/-- The `__cause__` of an exception (`raise ... from e`). -/
def Exc.cause : Exc → Option Exc
  | .mk _ _ c => c

/-- Whether a Python `except C` clause catches a raised exception of class
`raised`.  Encodes the class hierarchy of the exception classes involved:
since redis-py 3.0, `class AuthenticationError(ConnectionError)` — an
`except redis.exceptions.ConnectionError` clause therefore also catches
`AuthenticationError`.  The other classes used here are unrelated to one
another. -/
def catches (clause raised : ExcKind) : Bool :=
  clause == raised ||
    (clause == ExcKind.connectionError && raised == ExcKind.authenticationError)

/-- A Python value as it flows through `get` and the `port` argument:
`None`, an `int`, or a `str` (the client is constructed with
`decode_responses=True`, so raw reads are strings). -/
inductive PyVal where
  | none
  | int (n : Int)
  | str (s : String)
deriving DecidableEq, Repr

/-- Python truthiness of the modelled values: `None` is falsy, an `int` is
truthy iff nonzero, a `str` is truthy iff nonempty. -/
def truthy : PyVal → Bool
  | .none => false
  | .int n => n != 0
  | .str s => s != ""

/-- Decimal value of an ASCII digit, `none` on any other character. -/
def digitVal? (c : Char) : Option Nat :=
  if c.isDigit then some (c.toNat - 48) else Option.none

/-- Parses a nonempty all-digit character list as a decimal natural. -/
def parseNatDigits (cs : List Char) : Option Nat :=
  if cs.isEmpty then Option.none
  else cs.foldl
    (fun acc? c => acc?.bind fun acc => (digitVal? c).map fun d => acc * 10 + d)
    (some 0)

/-- Decimal integer parse, as Python's `int(str)` accepts it on the inputs
this repository exercises: an optional sign followed by decimal digits
(Python additionally strips whitespace and allows underscores; those
inputs do not occur here). -/
def pyIntOfString (s : String) : Option Int :=
  match s.data with
  | '-' :: rest => (parseNatDigits rest).map fun n => -(n : Int)
  | '+' :: rest => (parseNatDigits rest).map fun n => (n : Int)
  | cs => (parseNatDigits cs).map fun n => (n : Int)

/-- Python's `int(...)` builtin on the modelled values: `int(None)` raises
`TypeError`; `int` on an `int` is the identity; `int` on a `str` parses a
decimal integer and raises `ValueError` on strings that do not parse. -/
def intBuiltin : PyVal → Except Exc Int
  | .none =>
      .error (.mk .typeError
        (some "int() argument must be a string, a bytes-like object or a number, not NoneType")
        Option.none)
  | .int n => .ok n
  | .str s =>
      match pyIntOfString s with
      | some n => .ok n
      | Option.none =>
          .error (.mk .valueError
            (some s!"invalid literal for int() with base 10: {s}") Option.none)

/-- The coercion `map_type=int` used by `get` (the default `map_type`). -/
def mapInt (v : PyVal) : Except Exc PyVal :=
  (intBuiltin v).map PyVal.int

/-- The coercion `map_type=str`: `str(None) = "None"`, `str` of an `int` is
its decimal rendering, `str` of a `str` is itself.  It never raises. -/
def mapStr : PyVal → Except Exc PyVal
  | .none => .ok (.str "None")
  | .int n => .ok (.str (toString n))
  | .str s => .ok (.str s)

/-- The message of the `ConnectionError` re-raised by `_test_connection`:
`f'Cannot connect to {self.host}:{self.port}. Connection refused.'`. -/
def refusedMsg (host : String) (port : Int) : String :=
  s!"Cannot connect to {host}:{port}. Connection refused."

/-- `RedisGateway._test_connection` (lines 57–65), as a function of the
outcome of `self.r.echo('test_value')`.  Each `except` clause re-raises a
fresh exception `from None` (no cause); an exception matching none of the
three clauses propagates unchanged. -/
def testConnection (host : String) (port : Int) (echo : Except Exc Unit) :
    Except Exc Unit :=
  match echo with
  | .ok _ => .ok ()
  | .error e =>
      if catches .authenticationError e.kind then
        .error (.mk .authenticationError
          (some "Authentication required. Provide password.") Option.none)
      else if catches .responseError e.kind then
        .error (.mk .responseError
          (some "Invalid username-password pair or user is disabled") Option.none)
      else if catches .connectionError e.kind then
        .error (.mk .connectionError (some (refusedMsg host port)) Option.none)
      else .error e

/-- Observable trace of `_test_connection_with`: the exception it raised
(`none` when it returned normally), how many probe attempts ran, and how
many `time.sleep(1)` calls happened. -/
structure LoopTrace where
  outcome : Option Exc
  attempts : Nat
  sleeps : Nat

/-- The body of the `for t in range(1, timeout+1)` loop of
`RedisGateway._test_connection_with` (lines 45–55), recursing over the
remaining iteration values.  `probe t` is the outcome of the `echo` round
trip on attempt `t`.  On success the loop `break`s; a raised exception is
caught only by `except redis.exceptions.ConnectionError` (see `catches`),
and then either re-raised as a bare `ConnectionError from e` when
`t >= timeout`, or followed by `time.sleep(1)` and the next iteration. -/
def testConnectionLoop (host : String) (port : Int)
    (probe : Int → Except Exc Unit) (timeout : Int) :
    List Int → LoopTrace
  | [] => ⟨Option.none, 0, 0⟩
  | t :: rest =>
      match testConnection host port (probe t) with
      | .ok _ => ⟨Option.none, 1, 0⟩
      | .error e =>
          if catches .connectionError e.kind then
            if t ≥ timeout then
              ⟨some (.mk .connectionError Option.none (some e)), 1, 0⟩
            else
              let r := testConnectionLoop host port probe timeout rest
              ⟨r.outcome, r.attempts + 1, r.sleeps + 1⟩
          else ⟨some e, 1, 0⟩

/-- The iteration values of `range(1, timeout+1)`: `[1, …, timeout]`,
empty when `timeout ≤ 0`. -/
def rangeFromOne (timeout : Int) : List Int :=
  (List.range timeout.toNat).map (fun i : Nat => (i : Int) + 1)

/-- `RedisGateway._test_connection_with(timeout)` (lines 45–55). -/
def testConnectionWith (host : String) (port : Int)
    (probe : Int → Except Exc Unit) (timeout : Int) : LoopTrace :=
  testConnectionLoop host port probe timeout (rangeFromOne timeout)

/-- Observable trace of `RedisGateway.__init__`: the informational notice
printed (if any), the resolved `self.port` (absent when `int(port)` raised
before it was assigned), the exception construction raised (`none` when
the instance was constructed), and the probe/sleep counts of the
connection test. -/
structure InitTrace where
  notice : Option String
  port : Option Int
  outcome : Option Exc
  attempts : Nat
  sleeps : Nat

/-- `RedisGateway.__init__` (lines 34–40), as a function of the `port`
argument, the per-attempt probe outcomes, and `timeout`.
`self.port = int(port) if port else print('Choosing Redis default port: 6379') or 6379`:
a truthy `port` is coerced with `int(...)` (whose exception propagates),
a falsy one prints the notice and defaults to 6379 (`print` returns
`None`, so `or 6379` yields 6379).  Then `redis.Redis(...)` is built (it
does not touch the network) and `_test_connection_with(timeout)` runs. -/
def init (host : String) (portArg : PyVal)
    (probe : Int → Except Exc Unit) (timeout : Int) : InitTrace :=
  if truthy portArg then
    match intBuiltin portArg with
    | .error e => ⟨Option.none, Option.none, some e, 0, 0⟩
    | .ok p =>
        let r := testConnectionWith host p probe timeout
        ⟨Option.none, some p, r.outcome, r.attempts, r.sleeps⟩
  else
    let r := testConnectionWith host 6379 probe timeout
    ⟨some "Choosing Redis default port: 6379", some 6379, r.outcome,
      r.attempts, r.sleeps⟩

/-- The `try`/`except TypeError` part of `RedisGateway.get` (lines 67–75):
given the outcome of the raw read `self.r.get(key)` and the coercion
`map_type`, returns the control state reaching the `finally` block (a
pending exception or normal completion) together with the local variable
`value` (initialised to `None`; assigned only when
`map_type(self.r.get(key))` evaluated without raising).  The `except
TypeError` clause re-raises a fresh `TypeError from None`; its message
interpolates `str(map_type)` in Python, which the model renders with a
fixed placeholder since the exception is discarded by the
`finally`-return anyway. -/
def getTry (raw : Except Exc PyVal) (mapType : PyVal → Except Exc PyVal) :
    Except Exc PyVal × PyVal :=
  match raw with
  | .error e => (.error e, PyVal.none)
  | .ok rv =>
      match mapType rv with
      | .error e =>
          if catches .typeError e.kind then
            (.error (.mk .typeError
              (some "Value received from Redis db cannot be mapped to map_type")
              Option.none), PyVal.none)
          else (.error e, PyVal.none)
      | .ok w => (.ok w, w)

/-- `RedisGateway.get(key, default, map_type)` (lines 67–75).  The
`finally: return value or default` executes a `return` inside `finally`,
which discards any pending exception (the re-raised `TypeError` as well
as any transport error from the raw read), so `get` always returns
normally with `value or default` — the coerced value when it is truthy,
else `default`. -/
def get (raw : Except Exc PyVal) (defaultV : PyVal)
    (mapType : PyVal → Except Exc PyVal) : Except Exc PyVal :=
  let value := (getTry raw mapType).2
  .ok (if truthy value then value else defaultV)

/-!
Concrete probe environments and helper predicates used in the theorems.
-/

/-- A server whose `echo` always fails with a transport-level
`ConnectionError` (store unreachable / connection refused). -/
def probeRefused : Int → Except Exc Unit := fun _ =>
  .error (.mk .connectionError (some "Connection refused.") Option.none)

/-- A password-protected server probed without a credential: every `echo`
fails with `AuthenticationError` (the client raises it on the server's
NOAUTH reply). -/
def probeAuth : Int → Except Exc Unit := fun _ =>
  .error (.mk .authenticationError
    (some "Authentication required.") Option.none)

/-- The probe outcome `r` is a raised exception of class `k`. -/
def failsWith (r : Except Exc Unit) (k : ExcKind) : Prop :=
  ∃ e, r = .error e ∧ e.kind = k

/-!
Lemmas about `_test_connection` and the retry loop.
-/

theorem testConnection_ok_iff (host : String) (port : Int)
    (echo : Except Exc Unit) :
    testConnection host port echo = .ok () ↔ echo = .ok () := by
  cases echo with
  | ok u => cases u; simp [testConnection]
  | error e =>
      simp only [testConnection]
      split
      · simp
      · split
        · simp
        · split <;> simp

theorem testConnection_of_refused (host : String) (port : Int)
    (echo : Except Exc Unit) (h : failsWith echo .connectionError) :
    testConnection host port echo =
      .error (.mk .connectionError (some (refusedMsg host port)) Option.none) := by
  obtain ⟨e, rfl, hk⟩ := h
  simp [testConnection, catches, hk]

theorem loop_append (host : String) (port : Int)
    (probe : Int → Except Exc Unit) (timeout : Int) (L M : List Int)
    (hfail : ∀ t ∈ L, failsWith (probe t) .connectionError)
    (hlt : ∀ t ∈ L, t < timeout) :
    testConnectionLoop host port probe timeout (L ++ M) =
      ⟨(testConnectionLoop host port probe timeout M).outcome,
       (testConnectionLoop host port probe timeout M).attempts + L.length,
       (testConnectionLoop host port probe timeout M).sleeps + L.length⟩ := by
  induction L with
  | nil => simp
  | cons t rest ih =>
      have hpt := testConnection_of_refused host port (probe t)
        (hfail t (List.mem_cons_self t rest))
      have hlt' : ¬ t ≥ timeout := not_le.mpr (hlt t (List.mem_cons_self t rest))
      have ih' := ih (fun u hu => hfail u (List.mem_cons_of_mem t hu))
        (fun u hu => hlt u (List.mem_cons_of_mem t hu))
      rw [List.cons_append]
      simp only [testConnectionLoop, hpt, Exc.kind, catches, hlt']
      simp [ih', Nat.add_assoc]

theorem loop_last (host : String) (port : Int)
    (probe : Int → Except Exc Unit) (timeout t : Int)
    (hfail : failsWith (probe t) .connectionError) (hge : t ≥ timeout) :
    testConnectionLoop host port probe timeout [t] =
      ⟨some (.mk .connectionError Option.none
          (some (.mk .connectionError (some (refusedMsg host port)) Option.none))),
        1, 0⟩ := by
  simp [testConnectionLoop, testConnection_of_refused host port (probe t) hfail,
    Exc.kind, catches, hge]

theorem rangeFromOne_succ (n : Nat) :
    rangeFromOne ((n : Int) + 1) = rangeFromOne (n : Int) ++ [(n : Int) + 1] := by
  have h : ((n : Int) + 1).toNat = n + 1 := by omega
  rw [rangeFromOne, rangeFromOne, h, List.range_succ, List.map_append]
  simp

theorem length_rangeFromOne (n : Nat) :
    (rangeFromOne (n : Int)).length = n := by
  simp [rangeFromOne]

theorem mem_rangeFromOne {t N : Int} (h : t ∈ rangeFromOne N) :
    1 ≤ t ∧ t ≤ N := by
  rw [rangeFromOne, List.mem_map] at h
  obtain ⟨i, hi, rfl⟩ := h
  rw [List.mem_range] at hi
  omega

theorem timeout_mem_rangeFromOne {N : Int} (h : 1 ≤ N) :
    N ∈ rangeFromOne N := by
  rw [rangeFromOne, List.mem_map]
  refine ⟨N.toNat - 1, ?_, ?_⟩
  · rw [List.mem_range]; omega
  · omega

theorem loop_success (host : String) (port : Int)
    (probe : Int → Except Exc Unit) (timeout : Int) :
    ∀ L : List Int, timeout ∈ L →
      (testConnectionLoop host port probe timeout L).outcome = Option.none →
      ∃ t ∈ L, probe t = Except.ok () := by
  intro L
  induction L with
  | nil => simp
  | cons t rest ih =>
      intro hmem hout
      cases hpt : testConnection host port (probe t) with
      | ok u =>
          cases u
          exact ⟨t, List.mem_cons_self t rest,
            (testConnection_ok_iff host port (probe t)).mp hpt⟩
      | error e =>
          simp only [testConnectionLoop, hpt] at hout
          by_cases hc : catches .connectionError e.kind
          · by_cases hge : t ≥ timeout
            · simp [hc, hge] at hout
            · simp only [hc, if_true, hge, if_false] at hout
              have : timeout ∈ rest := by
                rcases List.mem_cons.mp hmem with h | h
                · omega
                · exact h
              obtain ⟨u, hu, hpu⟩ := ih this hout
              exact ⟨u, List.mem_cons_of_mem t hu, hpu⟩
          · simp [hc] at hout

/-!
Claim theorems.
-/

/-- C1: the claim says an authentication failure during construction is
never retried and raises AuthError immediately.  The code disagrees:
since redis-py 3.0 `AuthenticationError` is a subclass of
`ConnectionError`, so the `except redis.exceptions.ConnectionError`
clause of `_test_connection_with` catches the re-raised
`AuthenticationError`, sleeps 1 second, retries, and after the final
attempt raises a bare `ConnectionError` (not an auth error).  Evaluated
here at `timeout = 2` with every probe failing `AuthenticationError`:
construction performs 2 attempts, sleeps once, and the raised exception
is a `ConnectionError`. -/
theorem auth_error_retried_then_connectionError :
    (init "h" (PyVal.int 6379) probeAuth 2).sleeps = 1 ∧
    (init "h" (PyVal.int 6379) probeAuth 2).attempts = 2 ∧
    (init "h" (PyVal.int 6379) probeAuth 2).outcome.map Exc.kind =
      some ExcKind.connectionError ∧
    (init "h" (PyVal.int 6379) probeAuth 2).outcome.map Exc.kind ≠
      some ExcKind.authenticationError := by
  refine ⟨rfl, rfl, rfl, ?_⟩
  intro hcontra
  simp only [show (init "h" (PyVal.int 6379) probeAuth 2).outcome.map Exc.kind =
    some ExcKind.connectionError from rfl] at hcontra
  exact absurd (Option.some.inj hcontra) (by decide)

/-- C2 counterexample: at `host = "h"`, `port = 6379`, `timeout = 2`, with
every probe refused, the exception `_test_connection_with` raises is the
bare `raise redis.exceptions.ConnectionError from e` of line 51: it
carries no message of its own (the "Cannot connect …" text lives on its
`__cause__`), so the claim that the raised `ConnectionError` has the
message "cannot connect to host:port, connection refused" is false. -/
theorem final_raise_carries_no_message :
    (testConnectionWith "h" 6379 probeRefused 2).outcome.map Exc.msg =
      some Option.none ∧
    (testConnectionWith "h" 6379 probeRefused 2).outcome.map Exc.msg ≠
      some (some "cannot connect to h:6379, connection refused") ∧
    (testConnectionWith "h" 6379 probeRefused 2).attempts = 2 ∧
    (testConnectionWith "h" 6379 probeRefused 2).sleeps = 1 := by
  refine ⟨rfl, ?_, rfl, rfl⟩
  intro hcontra
  simp only [show (testConnectionWith "h" 6379 probeRefused 2).outcome.map Exc.msg =
    some Option.none from rfl] at hcontra
  exact absurd (Option.some.inj hcontra) (by simp)

/-- C2 (amended): with `timeout = N` (`N ≥ 1`) and every probe failing
with a connection-refused condition, the loop performs exactly `N`
attempts and `N - 1` one-second sleeps, and then raises a bare
`ConnectionError` whose `__cause__` is the `ConnectionError` carrying the
message `Cannot connect to host:port. Connection refused.`. -/
theorem refused_probes_exhaust_retries (host : String) (port : Int)
    (probe : Int → Except Exc Unit) (N : Nat) (hN : 1 ≤ N)
    (hfail : ∀ t, failsWith (probe t) ExcKind.connectionError) :
    testConnectionWith host port probe (N : Int) =
      ⟨some (.mk .connectionError Option.none
          (some (.mk .connectionError (some (refusedMsg host port)) Option.none))),
        N, N - 1⟩ := by
  obtain ⟨m, rfl⟩ : ∃ m, N = m + 1 := ⟨N - 1, by omega⟩
  have hcast : ((m + 1 : Nat) : Int) = (m : Int) + 1 := by push_cast; ring
  rw [testConnectionWith, hcast, rangeFromOne_succ]
  rw [loop_append host port probe ((m : Int) + 1) (rangeFromOne (m : Int))
      [(m : Int) + 1] (fun t _ => hfail t)
      (fun t ht => by have := mem_rangeFromOne ht; omega)]
  rw [loop_last host port probe ((m : Int) + 1) ((m : Int) + 1) (hfail _)
      (le_refl _)]
  simp [length_rangeFromOne, LoopTrace.mk.injEq]
  omega

/-- Witness for C2 (amended) at `N = 2` with every probe refused. -/
theorem refused_probes_exhaust_retries_witness :
    testConnectionWith "h" 6379 probeRefused 2 =
      ⟨some (.mk .connectionError Option.none
          (some (.mk .connectionError (some (refusedMsg "h" 6379)) Option.none))),
        2, 1⟩ :=
  refused_probes_exhaust_retries "h" 6379 probeRefused 2 (by decide)
    (fun t => ⟨Exc.mk .connectionError (some "Connection refused.") Option.none,
      rfl, rfl⟩)

/-- C3: `get` never raises to the caller: it always returns normally, and
on every failure path — transport error from the raw read, or a coercion
error (the re-raised `TypeError` as well as any other coercion failure) —
the `finally: return value or default` yields `default` since `value`
still holds `None`. -/
theorem get_never_raises (raw : Except Exc PyVal) (defaultV : PyVal)
    (mapType : PyVal → Except Exc PyVal) :
    (∃ v, get raw defaultV mapType = .ok v) ∧
    (∀ e, raw = .error e → get raw defaultV mapType = .ok defaultV) ∧
    (∀ v e, raw = .ok v → mapType v = .error e →
      get raw defaultV mapType = .ok defaultV) := by
  refine ⟨⟨_, rfl⟩, ?_, ?_⟩
  · rintro e rfl
    simp [get, getTry, truthy]
  · rintro v e rfl hm
    simp only [get, getTry, hm]
    by_cases hc : catches .typeError e.kind <;> simp [hc, truthy]

/-- Witness for C3: a transport error during the raw read resolves to the
default. -/
theorem get_never_raises_witness :
    get (.error (.mk .connectionError Option.none Option.none)) (PyVal.int 100)
      mapInt = .ok (PyVal.int 100) :=
  (get_never_raises (.error (.mk .connectionError Option.none Option.none))
    (PyVal.int 100) mapInt).2.1 _ rfl

/-- C4: whenever the coercion succeeds, `get` returns the coerced value
exactly when it is truthy and `default` otherwise; in particular a stored
`"0"` coerced through `int` is falsy and is replaced by the default 100. -/
theorem get_truthy_coercion_else_default :
    (∀ (raw : Except Exc PyVal) (v w defaultV : PyVal)
        (mapType : PyVal → Except Exc PyVal),
      raw = .ok v → mapType v = .ok w →
      get raw defaultV mapType = .ok (if truthy w then w else defaultV)) ∧
    get (.ok (PyVal.str "0")) (PyVal.int 100) mapInt = .ok (PyVal.int 100) := by
  constructor
  · rintro raw v w dV mt rfl hm
    simp [get, getTry, hm]
  · rfl

/-- Witness for C4: a truthy coerced value is returned as is. -/
theorem get_truthy_coercion_else_default_witness :
    get (.ok (PyVal.str "7")) (PyVal.int 100) mapInt =
      .ok (if truthy (PyVal.int 7) then PyVal.int 7 else PyVal.int 100) :=
  get_truthy_coercion_else_default.1 (.ok (PyVal.str "7")) (PyVal.str "7")
    (PyVal.int 7) (PyVal.int 100) mapInt rfl rfl

/-- C5: `get("limit", default=100, map_type=int)` with the key unset (raw
read yields `None`): `int(None)` raises `TypeError`, which is swallowed,
and the default 100 is returned. -/
theorem get_absent_key_int_returns_default :
    get (.ok PyVal.none) (PyVal.int 100) mapInt = .ok (PyVal.int 100) := rfl

/-- C6: `get("limit", default=100, map_type=int)` with `limit = "150"`
returns the integer 150. -/
theorem get_parses_stored_150 :
    get (.ok (PyVal.str "150")) (PyVal.int 100) mapInt = .ok (PyVal.int 150) := rfl

/-- C7 counterexample: at `timeout = 0` the retry loop body never runs, so
construction succeeds (no exception) although no liveness probe was ever
performed — refuting the claim for every configuration. -/
theorem construction_succeeds_without_probe_at_zero_timeout :
    (init "h" (PyVal.int 6379) probeRefused 0).outcome = Option.none ∧
    (init "h" (PyVal.int 6379) probeRefused 0).attempts = 0 := ⟨rfl, rfl⟩

/-- C7 (amended): for every configuration with `timeout ≥ 1`, if
construction does not raise then some probe attempt `t` with
`1 ≤ t ≤ timeout` actually succeeded — the instance holds a validated
connection, and otherwise construction fails entirely by raising. -/
theorem construction_validated_or_fails (host : String) (portArg : PyVal)
    (probe : Int → Except Exc Unit) (timeout : Int) (h1 : 1 ≤ timeout)
    (h2 : (init host portArg probe timeout).outcome = Option.none) :
    ∃ t, 1 ≤ t ∧ t ≤ timeout ∧ probe t = Except.ok () := by
  have key : ∀ p : Int,
      (testConnectionWith host p probe timeout).outcome = Option.none →
      ∃ t, 1 ≤ t ∧ t ≤ timeout ∧ probe t = Except.ok () := by
    intro p hp
    obtain ⟨t, ht, hpt⟩ := loop_success host p probe timeout
      (rangeFromOne timeout) (timeout_mem_rangeFromOne h1) hp
    obtain ⟨h1t, h2t⟩ := mem_rangeFromOne ht
    exact ⟨t, h1t, h2t, hpt⟩
  rw [init] at h2
  split at h2
  · split at h2
    · simp at h2
    · exact key _ (by simpa using h2)
  · exact key 6379 (by simpa using h2)

/-- Witness for C7 (amended): a probe that succeeds immediately. -/
theorem construction_validated_or_fails_witness :
    ∃ t : Int, 1 ≤ t ∧ t ≤ 1 ∧
      (fun _ : Int => (Except.ok () : Except Exc Unit)) t = Except.ok () :=
  construction_validated_or_fails "h" (PyVal.int 6379)
    (fun _ => (Except.ok () : Except Exc Unit)) 1 (by decide) rfl

/-- C8: a falsy `port` argument (omitted/`None`, and likewise `0`, which
Python's `if port` also treats as unset) prints the informational notice
and defaults the port to 6379; a truthy supplied port is used, coerced
through `int(...)`, with no notice. -/
theorem port_defaulting_and_notice (host : String)
    (probe : Int → Except Exc Unit) (timeout : Int) :
    ((init host PyVal.none probe timeout).notice =
        some "Choosing Redis default port: 6379" ∧
      (init host PyVal.none probe timeout).port = some 6379) ∧
    ((init host (PyVal.int 0) probe timeout).notice =
        some "Choosing Redis default port: 6379" ∧
      (init host (PyVal.int 0) probe timeout).port = some 6379) ∧
    (∀ n : Int, n ≠ 0 →
      (init host (PyVal.int n) probe timeout).notice = Option.none ∧
      (init host (PyVal.int n) probe timeout).port = some n) ∧
    ((init host (PyVal.str "6380") probe timeout).notice = Option.none ∧
      (init host (PyVal.str "6380") probe timeout).port = some 6380) := by
  refine ⟨⟨rfl, rfl⟩, ⟨rfl, rfl⟩, ?_, ⟨rfl, rfl⟩⟩
  intro n hn
  have ht : truthy (PyVal.int n) = true := by simp [truthy, hn]
  constructor <;> simp [init, ht, intBuiltin]

/-- Witness for C8: a supplied nonzero port is used without a notice. -/
theorem port_defaulting_and_notice_witness :
    (init "h" (PyVal.int 7) probeRefused 3).notice = Option.none ∧
    (init "h" (PyVal.int 7) probeRefused 3).port = some 7 :=
  (port_defaulting_and_notice "h" probeRefused 3).2.2.1 7 (by decide)

/-- C9: with `map_type=str`, an absent key does not fall back to the
default: `str(None)` is the truthy string `"None"`, which is returned
instead of the default. -/
theorem get_str_mapType_absent_not_default :
    get (.ok PyVal.none) (PyVal.int 100) mapStr = .ok (PyVal.str "None") ∧
    PyVal.str "None" ≠ PyVal.int 100 := ⟨rfl, by decide⟩

/-- C10: for `timeout ≤ 0` the `range(1, timeout+1)` is empty, so the loop
body never executes: no probe, no sleep, no exception — construction
succeeds with a never-validated connection. -/
theorem nonpositive_timeout_skips_probe (host : String) (port : Int)
    (probe : Int → Except Exc Unit) (timeout : Int) (h : timeout ≤ 0) :
    testConnectionWith host port probe timeout = ⟨Option.none, 0, 0⟩ ∧
    ∀ n : Int, (init host (PyVal.int n) probe timeout).outcome = Option.none ∧
      (init host (PyVal.int n) probe timeout).attempts = 0 := by
  have hr : rangeFromOne timeout = [] := by
    rw [rangeFromOne, Int.toNat_eq_zero.mpr h]
    rfl
  have hw : ∀ p : Int, testConnectionWith host p probe timeout =
      ⟨Option.none, 0, 0⟩ := by
    intro p
    rw [testConnectionWith, hr]
    rfl
  refine ⟨hw port, ?_⟩
  intro n
  by_cases hn : n = 0
  · subst hn
    constructor <;> simp [init, truthy, hw]
  · have ht : truthy (PyVal.int n) = true := by simp [truthy, hn]
    constructor <;> simp [init, ht, intBuiltin, hw]

/-- Witness for C10 at `timeout = -3`. -/
theorem nonpositive_timeout_skips_probe_witness :
    testConnectionWith "h" 6379 probeRefused (-3) = ⟨Option.none, 0, 0⟩ ∧
    (init "h" (PyVal.int 5) probeRefused (-3)).outcome = Option.none :=
  ⟨(nonpositive_timeout_skips_probe "h" 6379 probeRefused (-3) (by decide)).1,
   ((nonpositive_timeout_skips_probe "h" 6379 probeRefused (-3) (by decide)).2
      5).1⟩

end RedisGatewayModel
